import Mathlib

/-!
Shallow embedding of the documentation server of docs/tools/docs_server.py
(the later snapshot) and docs/tools/server.py (the earlier snapshot): the
path sanitization of the read endpoints, the tree enumeration and title
extraction behind the listing endpoints, and the uniform try/except error
boundary of every handler.

Strings from the source are modelled as Lean String; the character-level
operations (replace, split, title case, the two regular expressions) are
modelled on List Char via the data field so that they compute in the kernel.
The filesystem is a finite list of regular files in OS enumeration order;
each file carries its raw bytes together with the result of decoding them as
UTF-8 (reading a file in text mode fails exactly when that decoding fails,
which is what raises UnicodeDecodeError in the source). The external
collaborators of the spec, markdown rendering and MIME type guessing, enter
as function parameters of the handlers that use them.
-/

/-- Python whitespace in the ASCII range, as matched by the regex class
backslash-s and stripped by str.strip. -/
def isWs (c : Char) : Bool :=
  c = ' ' || c = '\t' || c = '\n' || c = '\r' || c = '\x0b' || c = '\x0c'

/-- Python membership test of one string in another (the in operator),
for a fixed pattern given as a character list. -/
def containsSub (pat : List Char) : List Char → Bool
  | [] => pat.isEmpty
  | c :: t => pat.isPrefixOf (c :: t) || containsSub pat t

/-- The security check of every handler, Python: ".." in file_path. -/
def hasDotDot : List Char → Bool
  | '.' :: '.' :: _ => true
  | _ :: t => hasDotDot t
  | [] => false

/-- String form of the traversal check. -/
def hasDotDotS (s : String) : Bool := hasDotDot s.data

/-- Python str.startswith. -/
def startsWithS (pre s : String) : Bool := pre.data.isPrefixOf s.data

/-- Python: s.replace("-", " ") (display name derivation). -/
def dashToSpace : List Char → List Char
  | '-' :: t => ' ' :: dashToSpace t
  | c :: t => c :: dashToSpace t
  | [] => []

/-- Python: title.replace("\\", "") (the escape character clean-up). -/
def dropBackslashes : List Char → List Char
  | '\\' :: t => dropBackslashes t
  | c :: t => c :: dropBackslashes t
  | [] => []

/-- Python: file.replace("\\", "/") (Windows separator normalization). -/
def backToFwd : List Char → List Char
  | '\\' :: t => '/' :: backToFwd t
  | c :: t => c :: backToFwd t
  | [] => []

/-- Python: s.replace(".mmd", "") — note this removes every occurrence of the
four characters, not only a trailing extension. -/
def dropMmdSub : List Char → List Char
  | '.' :: 'm' :: 'm' :: 'd' :: t => dropMmdSub t
  | c :: t => c :: dropMmdSub t
  | [] => []

/-- Python os.path.basename: the text after the last slash. -/
def basenameL (l : List Char) : List Char := (l.reverse.takeWhile (· ≠ '/')).reverse

/-- String form of basenameL. -/
def basenameS (s : String) : String := ⟨basenameL s.data⟩

/-- Python str.lower, ASCII. -/
def lowerL (l : List Char) : List Char := l.map Char.toLower

/-- Python str.title, ASCII: a letter is uppercased when the previous
character is not a letter, lowercased otherwise. -/
def titleAux : Bool → List Char → List Char
  | _, [] => []
  | prev, c :: t =>
    (if c.isAlpha then (if prev then c.toLower else c.toUpper) else c) :: titleAux c.isAlpha t

/-- Python str.title applied to a whole character list. -/
def titleCase (l : List Char) : List Char := titleAux false l

/-- Python str.strip: drop leading and trailing whitespace. -/
def stripL (l : List Char) : List Char := ((l.dropWhile isWs).reverse.dropWhile isWs).reverse

/-- Split on the slash separator, Python str.split("/") and the parts of a
relative pathlib path. -/
def splitSlash : List Char → List (List Char)
  | [] => [[]]
  | '/' :: t => [] :: splitSlash t
  | c :: t =>
    match splitSlash t with
    | [] => [[c]]
    | p :: ps => (c :: p) :: ps

/-- Python: "/".join(parts). -/
def joinSlash : List (List Char) → List Char
  | [] => []
  | [p] => p
  | p :: ps => p ++ '/' :: joinSlash ps

/-- pathlib PurePath.suffix of a file name: the extension with its dot when
the last dot of the name is neither its first nor its last character. -/
def pathSuffix (name : List Char) : List Char :=
  let e := name.reverse.takeWhile (· ≠ '.')
  if 0 < e.length ∧ e.length + 1 < name.length then '.' :: e.reverse else []

/-- pathlib PurePath.stem: the name without pathSuffix. -/
def pathStem (name : List Char) : List Char :=
  let e := name.reverse.takeWhile (· ≠ '.')
  if 0 < e.length ∧ e.length + 1 < name.length then
    name.take (name.length - (e.length + 1))
  else name

/-- os.path.splitext, first component, of a file name: drop from the last dot
when some character before it is not a dot. -/
def splitextStem (name : List Char) : List Char :=
  let e := name.reverse.takeWhile (· ≠ '.')
  if e.length < name.length ∧ (name.take (name.length - (e.length + 1))).any (· ≠ '.') then
    name.take (name.length - (e.length + 1))
  else name

/-- One regular file: its raw bytes and the result of decoding them as UTF-8
text; textOk is false when the bytes are not valid UTF-8, in which case a text
mode open of the file raises in the source. -/
structure FileData where
  bytes : List Nat
  textOk : Bool
  text : String
deriving DecidableEq

/-- The filesystem visible to the server: its regular files keyed by path, in
OS enumeration order. Directories play no role in the modelled logic. -/
structure FS where
  files : List (String × FileData)
deriving DecidableEq

/-- Find a file by exact path. -/
def FS.lookup (fs : FS) (p : String) : Option FileData :=
  (fs.files.find? (fun e => e.1 == p)).map (·.2)

/-- Python os.path.isfile. -/
def FS.isfile (fs : FS) (p : String) : Bool := (fs.lookup p).isSome

/-- The exceptions the handlers can raise; each carries the message that
str(e) yields for the error body. -/
inductive Err
  | valueError (msg : String)
  | fileNotFound (msg : String)
  | unicodeError (msg : String)
deriving DecidableEq

/-- Python str(e). -/
def Err.message : Err → String
  | .valueError m => m
  | .fileNotFound m => m
  | .unicodeError m => m

/-- Python open(path, encoding utf-8).read(): fails when the file is missing
or when its bytes are not valid UTF-8. -/
def openTextE (fs : FS) (p : String) : Except Err String :=
  match fs.lookup p with
  | none => .error (.fileNotFound ("No such file or directory: " ++ p))
  | some fd =>
    if fd.textOk then .ok fd.text
    else .error (.unicodeError ("utf-8 codec cannot decode " ++ p))

/-- The same text read, as an Option, for call sites whose failure is caught
by an inner try (the title extraction of get_docs_structure). -/
def openTextOpt (fs : FS) (p : String) : Option String :=
  match fs.lookup p with
  | some fd => if fd.textOk then some fd.text else none
  | none => none

/-- Python open(path, rb).read(): fails only when the file is missing. -/
def openBytesE (fs : FS) (p : String) : Except Err (List Nat) :=
  match fs.lookup p with
  | none => .error (.fileNotFound ("No such file or directory: " ++ p))
  | some fd => .ok fd.bytes

/-- One catalog entry of get_docs_structure (the dict appended per file). The
field sect stands for the source key section, a Lean keyword; folderPath none
models the Python None stored for root files. -/
structure Entry where
  type : String
  path : String
  title : String
  sect : String
  folderPath : Option String
  isRootFile : Bool
deriving DecidableEq

/-- One item of the docs_server list-mmd payload. -/
structure MmdItem where
  path : String
  name : String
  category : String
deriving DecidableEq

/-- One path-and-name item (the server.py list payload and the mockup list). -/
structure NameItem where
  path : String
  name : String
deriving DecidableEq

/-- One item of the list-docs payload. -/
structure DocItem where
  path : String
  name : String
  type : String
deriving DecidableEq

/-- The body a handler writes: the success payload shapes of the individual
endpoints, or the json error object of the except branch. -/
inductive Body
  | text (s : String)
  | bytes (b : List Nat)
  | entries (l : List Entry)
  | docList (l : List DocItem)
  | mmdList (l : List MmdItem)
  | nameList (l : List NameItem)
  | mockupList (l : List NameItem)
  | doc (title content path : String)
  | jsonErr (msg : String)
deriving DecidableEq

/-- An HTTP response of this logic: status, content type, body. -/
structure Response where
  status : Nat
  contentType : String
  body : Body
deriving DecidableEq

/-- Whether a body is the json error object. -/
def Body.isErr : Body → Bool
  | .jsonErr _ => true
  | _ => false

/-- The except branch every handler shares: status 500 and a json object
carrying the message under the error key. -/
def errResp (msg : String) : Response :=
  { status := 500, contentType := "application/json", body := .jsonErr msg }

/-- The try/except boundary of a handler: success sends 200 with the content
type and payload the handler produced, a raised error sends the error
response. -/
def boundary : Except Err (String × Body) → Response
  | .ok (ct, b) => { status := 200, contentType := ct, body := b }
  | .error e => errResp e.message

/-- Python os.path.join("docs", p) on posix: the docs component is discarded
when p is absolute. -/
def ospJoinDocs (p : String) : String :=
  if startsWithS "/" p then p else "docs/" ++ p

namespace DocsServer

/-- The percent decoding of the read handlers of docs_server.py: Python
file_path.replace with arguments percent-2-F and slash, so only that exact
uppercase three character sequence is rewritten. -/
def decodeSepAux : List Char → List Char
  | '%' :: '2' :: 'F' :: t => '/' :: decodeSepAux t
  | c :: t => c :: decodeSepAux t
  | [] => []

/-- String form of the percent decoding. -/
def decodeS (s : String) : String := ⟨decodeSepAux s.data⟩

/-- The path resolution of handle_read_mmd and handle_read_doc after their
security check: prepend docs when the decoded path does not already start
with it, through os.path.join, so an absolute path survives unchanged. -/
def resolveDocs (p : String) : String :=
  let fp := decodeS p
  if startsWithS "docs/" fp then fp else ospJoinDocs fp

/-- handle_read_mmd of docs_server.py. The argument p is self.path with the
ten characters of the read-mmd route stripped, as the source slices it. -/
def handle_read_mmd (fs : FS) (p : String) : Response :=
  boundary (
    if hasDotDotS (decodeS p) then .error (.valueError "Invalid file path")
    else
      let fp := resolveDocs p
      if !(fs.isfile fp) then .error (.fileNotFound ("File not found: " ++ fp))
      else
        match openTextE fs fp with
        | .error e => .error e
        | .ok content => .ok ("text/plain", .text content))

/-- The hash marks at a line start of the heading pattern: consume exactly n
of them. -/
def hashMarks : Nat → List Char → Option (List Char)
  | 0, l => some l
  | n + 1, '#' :: t => hashMarks n t
  | _ + 1, _ => none

/-- The rest of the heading pattern after the hash marks: one or more
whitespace characters, then a captured run of one or more non-newline
characters, then end of line, with the re backtracking semantics: the
whitespace class includes newlines, and when the greedy whitespace run
reaches the end of the input the engine backtracks far enough to leave one
non-newline character for the capture. -/
def matchAfterHash (r0 : List Char) : Option (List Char) :=
  let w := r0.takeWhile isWs
  let r := r0.dropWhile isWs
  if w.isEmpty then none
  else if !r.isEmpty then some (r.takeWhile (· ≠ '\n'))
  else
    match (w.drop 1).reverse.dropWhile (· = '\n') with
    | [] => none
    | c :: _ => some [c]

/-- re.search of the multiline heading pattern: try every line start from the
top of the content, return the first capture group. The fuel argument bounds
the recursion by the content length. -/
def searchHeading (n : Nat) : Nat → List Char → Option (List Char)
  | 0, _ => none
  | fuel + 1, l =>
    match (match hashMarks n l with
           | some r0 => matchAfterHash r0
           | none => none) with
    | some g => some g
    | none =>
      match l.dropWhile (· ≠ '\n') with
      | [] => none
      | _ :: rest => searchHeading n fuel rest

/-- The first heading capture of a content string, n the heading level. -/
def reHeading (n : Nat) (content : String) : Option (List Char) :=
  searchHeading n (content.data.length + 1) content.data

/-- handle_read_doc of docs_server.py; markdown.markdown with its fixed
extension set is the external renderer, passed as a parameter. The title sent
back is the raw first level-1 heading group, unstripped, or the basename. -/
def handle_read_doc (render : String → String) (fs : FS) (p : String) : Response :=
  boundary (
    if hasDotDotS (decodeS p) then .error (.valueError "Invalid file path")
    else
      let fp := resolveDocs p
      if !(fs.isfile fp) then .error (.fileNotFound ("File not found: " ++ fp))
      else
        match openTextE fs fp with
        | .error e => .error e
        | .ok content =>
          let htmlContent := render content
          let title :=
            match reHeading 1 content with
            | some g => (⟨g⟩ : String)
            | none => basenameS fp
          .ok ("application/json", .doc title htmlContent fp))

/-- handle_read_file of docs_server.py; mimetypes.guess_type is external,
passed as a parameter; a missing guess falls back to the octet-stream type. -/
def handle_read_file (guessMime : String → Option String) (fs : FS) (p : String) : Response :=
  boundary (
    let fp := decodeS p
    if !(startsWithS "docs/" fp) || hasDotDotS fp then
      .error (.valueError "Invalid file path")
    else
      let mimeType := (guessMime fp).getD "application/octet-stream"
      match openBytesE fs fp with
      | .error e => .error e
      | .ok content => .ok (mimeType, .bytes content))

/-- handle_mockup of docs_server.py: the narrower current-project allow list;
note the source performs no percent decoding here and no existence check
before the open. -/
def handle_mockup (fs : FS) (p : String) : Response :=
  boundary (
    if !(startsWithS "docs/current-project/" p) || hasDotDotS p then
      .error (.valueError "Invalid file path")
    else
      match openTextE fs p with
      | .error e => .error e
      | .ok content => .ok ("text/html", .text content))

/-- Default title of get_docs_structure: filename stem, dashes to spaces,
title case. -/
def defaultTitle (stem : List Char) : String := ⟨titleCase (dashToSpace stem)⟩

/-- The title clean-up of the markdown branch: strip backslashes; when the
title holds a colon and the stripped part before the first colon is longer
than three characters, keep only that part. -/
def cleanupTitle (t : String) : String :=
  let t2 : List Char := dropBackslashes t.data
  if containsSub [':'] t2 then
    let mainTitle := stripL (t2.takeWhile (· ≠ ':'))
    if mainTitle.length > 3 then ⟨mainTitle⟩ else ⟨t2⟩
  else ⟨t2⟩

/-- Title of a markdown file in get_docs_structure: first level-1 heading,
else first level-2 heading, else the filename default; the clean-up runs
whenever the read succeeded; a read or decode failure keeps the plain default
because the inner except branch only logs. -/
def mdTitle (contentOpt : Option String) (dflt : String) : String :=
  match contentOpt with
  | none => dflt
  | some content =>
    let t :=
      match reHeading 1 content with
      | some g => (⟨stripL g⟩ : String)
      | none =>
        match reHeading 2 content with
        | some g => (⟨stripL g⟩ : String)
        | none => dflt
    cleanupTitle t

/-- The diagram indicating words of the mermaid branch. -/
def diagramWords : List (List Char) :=
  ["diagram".data, "flow".data, "chart".data, "architecture".data]

/-- Title of a mermaid file: prefix the Diagram label when the lowered
default title holds none of the diagram words. -/
def mmdTitle (dflt : String) : String :=
  if diagramWords.any (fun w => containsSub w (lowerL dflt.data)) then dflt
  else "Diagram: " ++ dflt

/-- The title get_docs_structure computes for one enumerated file. -/
def fileTitle (fs : FS) (p : String) : String :=
  let name := basenameL p.data
  let dflt := defaultTitle (pathStem name)
  if pathSuffix name = ".md".data then mdTitle (openTextOpt fs p) dflt
  else if pathSuffix name = ".mmd".data then mmdTitle dflt
  else dflt

/-- The section priority table of get_docs_structure with its 999 default. -/
def sectionOrderNum (s : String) : Nat :=
  if s = "common" then 0
  else if s = "react" then 1
  else if s = "electron" then 2
  else if s = "rust-core" then 3
  else 999

/-- Ordering of the sorted enumeration, CPython pathlib comparison of the
path strings. -/
def pathLe (a b : String) : Prop := a.data ≤ b.data

instance : DecidableRel pathLe := fun a b => inferInstanceAs (Decidable (a.data ≤ b.data))

/-- The catalog entries of get_docs_structure before the final sort: walk the
sorted enumeration of the files under docs/architecture, skip names starting
with a dot or a double underscore, keep markdown and mermaid files. The
slices of length five and eighteen are the relative paths against docs and
against docs/architecture. -/
def structureEntries (fs : FS) : List Entry :=
  let paths := (fs.files.map (·.1)).filter (fun p => startsWithS "docs/architecture/" p)
  (List.insertionSort pathLe paths).filterMap (fun p =>
    let name := basenameL p.data
    if name.take 1 = ['.'] ∨ name.take 2 = ['_', '_'] then none
    else
      let sfx := pathSuffix name
      if sfx = ".md".data ∨ sfx = ".mmd".data then
        let parts := splitSlash (p.data.drop 18)
        some { type := if sfx = ".mmd".data then "diagram" else "doc",
               path := ⟨p.data.drop 5⟩,
               title := fileTitle fs p,
               sect := ⟨parts.headD []⟩,
               folderPath :=
                 if parts.length > 1 then some ⟨joinSlash parts.dropLast⟩ else none,
               isRootFile := parts.length = 1 }
      else none)

/-- The sort key of the structure sort: section priority, root flag, folder
path, title. The Python key reads the stored folder path with dict get whose
default never applies; the stored None of a root file compares only against
the None of another root file because the root flag sorts first, so the empty
string stands in for None without changing any reachable comparison. The full
path is not part of the key. -/
def entryKey (e : Entry) : Lex (Nat × Lex (Nat × Lex (List Char × List Char))) :=
  toLex (sectionOrderNum e.sect,
    toLex ((if e.isRootFile then 0 else 1),
      toLex (((e.folderPath.getD "").data, e.title.data))))

/-- The comparison the structure sort uses. -/
def entryLe (a b : Entry) : Prop := entryKey a ≤ entryKey b

instance : DecidableRel entryLe := fun a b => inferInstanceAs (Decidable (entryKey a ≤ entryKey b))

instance : IsTotal Entry entryLe := ⟨fun a b => le_total (entryKey a) (entryKey b)⟩

instance : IsTrans Entry entryLe := ⟨fun _ _ _ h h2 => le_trans h h2⟩

/-- Python list.sort with the key above: a stable ascending sort. -/
def pySortEntries (l : List Entry) : List Entry := List.insertionSort entryLe l

/-- get_docs_structure of docs_server.py. -/
def get_docs_structure (fs : FS) : List Entry := pySortEntries (structureEntries fs)

/-- handle_docs_structure of docs_server.py. -/
def handle_docs_structure (fs : FS) : Response :=
  boundary (.ok ("application/json", .entries (get_docs_structure fs)))

end DocsServer

namespace DocsServer

/-- A path component is visible to glob: it does not start with a dot (glob
wildcards never match hidden names). -/
def globVisible (c : List Char) : Bool := c.take 1 != ['.']

/-- glob.glob of the recursive pattern docs, doublestar, star with an
extension: the files under docs whose components below docs are all visible
and whose name ends with the extension, in enumeration order. -/
def globDocsExt (fs : FS) (ext : String) : List String :=
  (fs.files.map (·.1)).filter (fun p =>
    startsWithS "docs/" p &&
    (splitSlash (p.data.drop 5)).all globVisible &&
    ext.data.isSuffixOf (basenameL p.data))

/-- The key of the list-mmd sort: the category and name pair. -/
def mmdKey (x : MmdItem) : Lex (List Char × List Char) := toLex (x.category.data, x.name.data)

/-- The comparison of the list-mmd sort. -/
def mmdLe (a b : MmdItem) : Prop := mmdKey a ≤ mmdKey b

instance : DecidableRel mmdLe := fun a b => inferInstanceAs (Decidable (mmdKey a ≤ mmdKey b))

/-- Python diagrams.sort by category and name, stable. -/
def pySortMmd (l : List MmdItem) : List MmdItem := List.insertionSort mmdLe l

/-- handle_list_mmd of docs_server.py: glob all mermaid files under docs,
skip node_modules paths, derive display name and category, sort. -/
def handle_list_mmd (fs : FS) : Response :=
  boundary (
    let files := (globDocsExt fs ".mmd").filter
      (fun f => !(containsSub "node_modules".data f.data))
    let diagrams := files.map (fun f =>
      let relativePath := backToFwd f.data
      let pathParts := splitSlash relativePath
      let category := if pathParts.length > 2 then pathParts.getD 1 [] else "Other".data
      ({ path := ⟨relativePath⟩,
         name := ⟨titleCase (dashToSpace (dropMmdSub (basenameL f.data)))⟩,
         category := ⟨titleCase (dashToSpace category)⟩ } : MmdItem))
    .ok ("application/json", .mmdList (pySortMmd diagrams)))

/-- handle_list_docs of docs_server.py: markdown, mermaid, svg and html files
in that extension order; skip paths holding the tools directory; no sort. -/
def handle_list_docs (fs : FS) : Response :=
  boundary (
    let docsFor := fun (ext ftype : String) =>
      ((globDocsExt fs ("." ++ ext)).map (fun f => (⟨backToFwd f.data⟩ : String))).filterMap
        (fun f =>
          if containsSub "/tools/".data f.data then none
          else
            some ({ path := f,
                    name := ⟨titleCase (dashToSpace (splitextStem (basenameL f.data)))⟩,
                    type := ftype } : DocItem))
    .ok ("application/json",
      .docList (docsFor "md" "doc" ++ docsFor "mmd" "diagram" ++
                docsFor "svg" "svg" ++ docsFor "html" "html")))

/-- Match of the star patterns of the mockup glob: a visible name directly
under the mockups directory with the extension; the slice of length 29 is the
text after that directory. -/
def mockupStarMatch (ext : String) (p : String) : Bool :=
  startsWithS "docs/current-project/mockups/" p &&
  (let rest := p.data.drop 29
   !(rest.isEmpty) && !(containsSub ['/'] rest) && globVisible rest &&
     ext.data.isSuffixOf rest)

/-- The glob results of the three mockup patterns in order: the literal
ui-mockup path when that file exists, then the png files, then the jpg files. -/
def mockupGlob (fs : FS) : List String :=
  (if fs.isfile "docs/current-project/diagrams/ui-mockup.html" then
    ["docs/current-project/diagrams/ui-mockup.html"] else [])
  ++ ((fs.files.map (·.1)).filter (fun p => mockupStarMatch ".png" p))
  ++ ((fs.files.map (·.1)).filter (fun p => mockupStarMatch ".jpg" p))

/-- The lazy capture of the title tag pattern: the shortest run of
non-newline characters followed by the closing tag. -/
def captureTitle : List Char → Option (List Char)
  | [] => none
  | c :: t =>
    if "</title>".data.isPrefixOf (c :: t) then some []
    else if c = '\n' then none
    else (captureTitle t).map (c :: ·)

/-- re.search of the title tag pattern: the first position with an opening
tag whose lazy capture succeeds. -/
def searchTitleTag : Nat → List Char → Option (List Char)
  | 0, _ => none
  | _ + 1, [] => none
  | fuel + 1, c :: t =>
    match (if "<title>".data.isPrefixOf (c :: t) then captureTitle ((c :: t).drop 7)
           else none) with
    | some g => some g
    | none => searchTitleTag fuel t

/-- The per-file body of the list-mockups loop: read the file as text, take
the title tag capture or the basename. The read failure propagates: it sits
inside the handler-wide try of the source, not inside a per-file one. -/
def mockupTitleOf (fs : FS) (f : String) : Except Err String :=
  match openTextE fs f with
  | .error e => .error e
  | .ok content =>
    .ok (match searchTitleTag (content.data.length + 1) content.data with
         | some g => (⟨g⟩ : String)
         | none => basenameS f)

/-- The list-mockups loop over the globbed files. -/
def mockupItems (fs : FS) : List String → Except Err (List NameItem)
  | [] => .ok []
  | f :: rest =>
    match mockupTitleOf fs f with
    | .error e => .error e
    | .ok title =>
      match mockupItems fs rest with
      | .error e => .error e
      | .ok tl => .ok ({ path := ⟨backToFwd f.data⟩, name := title } :: tl)

/-- The comparison of the mockup sort: by name. -/
def nameLe (a b : NameItem) : Prop := a.name.data ≤ b.name.data

instance : DecidableRel nameLe := fun a b => inferInstanceAs (Decidable (a.name.data ≤ b.name.data))

/-- Python mockups.sort by name, stable. -/
def pySortNames (l : List NameItem) : List NameItem := List.insertionSort nameLe l

/-- handle_list_mockups of docs_server.py. -/
def handle_list_mockups (fs : FS) : Response :=
  boundary (
    match mockupItems fs (mockupGlob fs) with
    | .error e => .error e
    | .ok mockups => .ok ("application/json", .mockupList (pySortNames mockups)))

end DocsServer

namespace Server

/-- handle_read_mmd of server.py, the earlier snapshot: no percent decoding,
the docs/architecture allow list, a direct open with no existence check. The
argument p is self.path with the ten characters of the route stripped. -/
def handle_read_mmd (fs : FS) (p : String) : Response :=
  boundary (
    if !(startsWithS "docs/architecture/" p) || hasDotDotS p then
      .error (.valueError "Invalid file path")
    else
      match openTextE fs p with
      | .error e => .error e
      | .ok content => .ok ("text/plain", .text content))

/-- Match of the server.py listing pattern docs/architecture, doublestar,
diagrams, star-dot-mmd: any run of visible directories, then a diagrams
directory, then a visible mermaid name. -/
def serverMmdMatch (p : String) : Bool :=
  startsWithS "docs/architecture/" p &&
  (match (splitSlash (p.data.drop 18)).reverse with
   | name :: dir :: mid =>
     (dir == "diagrams".data) && DocsServer.globVisible name &&
       ".mmd".data.isSuffixOf name && mid.all DocsServer.globVisible
   | _ => false)

/-- handle_list_mmd of server.py: no title casing and no sort. -/
def handle_list_mmd (fs : FS) : Response :=
  boundary (
    let files := (fs.files.map (·.1)).filter serverMmdMatch
    .ok ("application/json", .nameList (files.map (fun f =>
      ({ path := ⟨backToFwd f.data⟩, name := ⟨dropMmdSub (basenameL f.data)⟩ } : NameItem)))))

end Server

/-- The response shape of the claim on statuses: 200, or 500 with the json
error object. -/
def okOr500Err (r : Response) : Prop :=
  r.status = 200 ∨ (r.status = 500 ∧ r.contentType = "application/json" ∧ r.body.isErr = true)

/-! ## Fixtures for the concrete theorems -/

/-- The empty filesystem. -/
def fsEmpty : FS := ⟨[]⟩

/-- A file whose directory name holds percent-encoded dots, literally, under
the document root. -/
def fsC1 : FS := ⟨[("docs/%2e%2e/x.mmd", ⟨[103], true, "graph TD"⟩)]⟩

/-- A filesystem with a file outside the document root. -/
def fsC2 : FS := ⟨[("/etc/passwd", ⟨[114], true, "root:x:0:0:root"⟩)]⟩

/-- A docs file outside the mockup subtree. -/
def fsC3 : FS := ⟨[("docs/architecture/x.md", ⟨[35], true, "# T"⟩)]⟩

/-- A mermaid file under the document root. -/
def fsC4 : FS := ⟨[("docs/architecture/diagrams/arch.mmd", ⟨[103, 114], true, "graph TD;"⟩)]⟩

/-- Two catalog entries agreeing on every sort key component but with
different full paths. -/
def entC5a : Entry :=
  { type := "doc", path := "architecture/common/guides/a.md", title := "Same Title",
    sect := "common", folderPath := some "common/guides", isRootFile := false }

/-- The partner entry of entC5a. -/
def entC5b : Entry :=
  { type := "doc", path := "architecture/common/guides/b.md", title := "Same Title",
    sect := "common", folderPath := some "common/guides", isRootFile := false }

/-- The title extraction examples of the spec. -/
def fsC6 : FS := ⟨[
  ("docs/architecture/common/hello.md", ⟨[35], true, "# Hello World\nBody text."⟩),
  ("docs/architecture/common/getting-started.md", ⟨[78], true, "No heading here.\nJust prose."⟩),
  ("docs/architecture/react/flow-chart.mmd", ⟨[103], true, "graph LR;"⟩),
  ("docs/architecture/react/overview.mmd", ⟨[104], true, "graph TD;"⟩)]⟩

/-- A tree with one binary png mockup and one markdown file whose bytes are
not valid UTF-8. -/
def fsC7 : FS := ⟨[
  ("docs/current-project/diagrams/ui-mockup.html", ⟨[60], true, "<html><title>UI Mockup</title></html>"⟩),
  ("docs/current-project/mockups/screen.png", ⟨[137, 80, 78, 71], false, ""⟩),
  ("docs/architecture/common/broken.md", ⟨[255, 254], false, ""⟩)]⟩

/-- One mermaid file for the prepending equivalence. -/
def fsC9 : FS := ⟨[("docs/architecture/x.mmd", ⟨[103], true, "graph RL;"⟩)]⟩

/-- Files whose names hold literal percent escapes, next to a decoded
counterpart. -/
def fsC10 : FS := ⟨[
  ("docs/a%2fb", ⟨[1], true, "lower escape literal"⟩),
  ("docs/a/b", ⟨[2], true, "decoded slash"⟩),
  ("docs/%2e%2e/f", ⟨[3], true, "dot escapes literal"⟩)]⟩

/-! ## Helper lemmas -/

/-- Any boundary result is a 200 or the 500 json error. -/
theorem boundary_okOr500Err (x : Except Err (String × Body)) : okOr500Err (boundary x) := by
  match x with
  | .ok (ct, b) => exact Or.inl rfl
  | .error e => exact Or.inr ⟨rfl, rfl, rfl⟩

/-- Decoding distributes over a prepended docs component. -/
theorem decodeSepAux_docs (l : List Char) :
    DocsServer.decodeSepAux ('d' :: 'o' :: 'c' :: 's' :: '/' :: l) =
      'd' :: 'o' :: 'c' :: 's' :: '/' :: DocsServer.decodeSepAux l := rfl

/-- The traversal check ignores a prepended docs component. -/
theorem hasDotDot_docs (l : List Char) :
    hasDotDot ('d' :: 'o' :: 'c' :: 's' :: '/' :: l) = hasDotDot l := rfl

/-- The character data of a docs-prepended string. -/
theorem data_docs_append (s : String) :
    ("docs/" ++ s).data = 'd' :: 'o' :: 'c' :: 's' :: '/' :: s.data := by
  rw [String.data_append, show "docs/".data = ['d', 'o', 'c', 's', '/'] from by decide]
  rfl

/-- Decoding distributes over a prepended docs component, string form. -/
theorem decode_docs (s : String) :
    DocsServer.decodeS ("docs/" ++ s) = "docs/" ++ DocsServer.decodeS s := by
  show String.mk (DocsServer.decodeSepAux ("docs/" ++ s).data) = _
  rw [data_docs_append, decodeSepAux_docs]
  rfl

/-- The traversal check ignores a prepended docs component, string form. -/
theorem hasDotDotS_docs (s : String) : hasDotDotS ("docs/" ++ s) = hasDotDotS s := by
  show hasDotDot ("docs/" ++ s).data = hasDotDot s.data
  rw [data_docs_append]
  exact hasDotDot_docs s.data

/-- A docs-prepended string starts with docs. -/
theorem startsWith_docs_append (s : String) : startsWithS "docs/" ("docs/" ++ s) = true := by
  show "docs/".data.isPrefixOf ("docs/" ++ s).data = true
  rw [data_docs_append, show "docs/".data = ['d', 'o', 'c', 's', '/'] from by decide]
  simp [List.isPrefixOf]

/-- Resolution of a relative path not under docs agrees with resolution of
its docs-prepended form. -/
theorem resolveDocs_docs (s : String)
    (h1 : startsWithS "docs/" (DocsServer.decodeS s) = false)
    (h2 : startsWithS "/" (DocsServer.decodeS s) = false) :
    DocsServer.resolveDocs ("docs/" ++ s) = DocsServer.resolveDocs s := by
  simp only [DocsServer.resolveDocs, ospJoinDocs]
  rw [decode_docs, startsWith_docs_append, h1, h2]
  simp

/-- A cons that does not start the uppercase escape decodes to itself in
front of the decoded tail. -/
theorem decodeSepAux_cons_ne (c : Char) (t : List Char)
    (h : "%2F".data.isPrefixOf (c :: t) = false) :
    DocsServer.decodeSepAux (c :: t) = c :: DocsServer.decodeSepAux t := by
  rw [DocsServer.decodeSepAux.eq_def]
  split
  · rename_i u heq
    rw [show c :: t = '%' :: '2' :: 'F' :: u from heq] at h
    simp [List.isPrefixOf] at h
  · rename_i c2 t2 hno heq
    injection heq with h1 h2
    rw [h1, h2]
  · rename_i heq
    exact (List.cons_ne_nil c t heq).elim

/-- A string without the uppercase escape decodes to itself. -/
theorem decodeSepAux_id (l : List Char) (h : containsSub "%2F".data l = false) :
    DocsServer.decodeSepAux l = l := by
  induction l with
  | nil => rfl
  | cons c t ih =>
    simp only [containsSub, Bool.or_eq_false_iff] at h
    rw [decodeSepAux_cons_ne c t h.1, ih h.2]

/-! ## The claims -/

/-- Claim C1, counterexample: a request path whose parent-directory segment
is percent-encoded as percent-2-e is not decoded and not rejected; with a
file literally named that way under the root, the read-mmd handler answers
200 with the file content instead of an error response. -/
theorem claim_C1_cex :
    containsSub "%2e%2e".data "%2e%2e/x.mmd".data = true ∧
    DocsServer.handle_read_mmd fsC1 "%2e%2e/x.mmd" =
      { status := 200, contentType := "text/plain", body := .text "graph TD" } := by
  refine ⟨by decide, by decide⟩

/-- Claim C1, amended: the read endpoints reject every request path that
holds a literal parent-directory segment after their decoding, which rewrites
only the uppercase percent-2-F escape; the mockup endpoint and the earlier
snapshot check the undecoded path the same way. A parent-directory segment
hidden as percent-encoded dots is not decoded, hence not rejected: it is
treated as literal filename characters (the counterexample). -/
theorem claim_C1_amended (fs : FS) (render : String → String)
    (guessMime : String → Option String) (p : String) :
    (hasDotDotS (DocsServer.decodeS p) = true →
      DocsServer.handle_read_mmd fs p = errResp "Invalid file path" ∧
      DocsServer.handle_read_doc render fs p = errResp "Invalid file path" ∧
      DocsServer.handle_read_file guessMime fs p = errResp "Invalid file path") ∧
    (hasDotDotS p = true →
      DocsServer.handle_mockup fs p = errResp "Invalid file path" ∧
      Server.handle_read_mmd fs p = errResp "Invalid file path") := by
  constructor
  · intro h
    refine ⟨?_, ?_, ?_⟩
    · simp only [DocsServer.handle_read_mmd]
      rw [h]
      rfl
    · simp only [DocsServer.handle_read_doc]
      rw [h]
      rfl
    · simp only [DocsServer.handle_read_file]
      rw [h]
      simp only [Bool.or_true]
      rfl
  · intro h
    refine ⟨?_, ?_⟩
    · simp only [DocsServer.handle_mockup]
      rw [h]
      simp only [Bool.or_true]
      rfl
    · simp only [Server.handle_read_mmd]
      rw [h]
      simp only [Bool.or_true]
      rfl

/-- Claim C1, witness of the amended theorem at concrete traversal paths. -/
theorem claim_C1_witness :
    hasDotDotS (DocsServer.decodeS "..%2Fsecret") = true ∧
    hasDotDotS "../secret" = true ∧
    DocsServer.handle_read_mmd fsEmpty "..%2Fsecret" = errResp "Invalid file path" ∧
    DocsServer.handle_mockup fsEmpty "../secret" = errResp "Invalid file path" :=
  ⟨by decide, by decide,
   ((claim_C1_amended fsEmpty id (fun _ => none) "..%2Fsecret").1 (by decide)).1,
   ((claim_C1_amended fsEmpty id (fun _ => none) "../secret").2 (by decide)).1⟩

/-- Claim C2, the code bug: the path the later snapshot passes to open need
not start with the allow-listed docs prefix. A request whose decoded path is
absolute survives os.path.join unchanged, so read-mmd and read-doc open a
file outside the document root and answer 200 even though the sanitization
checks ran. -/
theorem claim_C2_bug :
    hasDotDotS (DocsServer.decodeS "/etc/passwd") = false ∧
    DocsServer.resolveDocs "/etc/passwd" = "/etc/passwd" ∧
    startsWithS "docs/" "/etc/passwd" = false ∧
    DocsServer.handle_read_mmd fsC2 "/etc/passwd" =
      { status := 200, contentType := "text/plain", body := .text "root:x:0:0:root" } ∧
    DocsServer.handle_read_doc id fsC2 "/etc/passwd" =
      { status := 200, contentType := "application/json",
        body := .doc "passwd" "root:x:0:0:root" "/etc/passwd" } := by
  refine ⟨by decide, by decide, by decide, by decide, by decide⟩

/-- Claim C3: every request to the mockup endpoint whose path does not start
with the current-project subtree is rejected with the invalid path error,
whatever the filesystem holds. -/
theorem claim_C3 (fs : FS) (p : String)
    (h : startsWithS "docs/current-project/" p = false) :
    DocsServer.handle_mockup fs p = errResp "Invalid file path" := by
  simp only [DocsServer.handle_mockup]
  rw [h]
  rfl

/-- Claim C3, witness: a path under the general document root but outside
the mockup subtree is rejected by the mockup endpoint. -/
theorem claim_C3_witness :
    startsWithS "docs/current-project/" "docs/architecture/x.md" = false ∧
    DocsServer.handle_mockup fsC3 "docs/architecture/x.md" = errResp "Invalid file path" :=
  ⟨by decide, claim_C3 fsC3 "docs/architecture/x.md" (by decide)⟩

/-- Claim C4: when sanitization passes and the resolved path names an
existing file, read-mmd of both snapshots returns exactly the decoded text of
that file and read-file returns exactly its bytes, unmodified. -/
theorem claim_C4 (fs : FS) (p : String) (fd : FileData) (guessMime : String → Option String) :
    (hasDotDotS (DocsServer.decodeS p) = false ∧
        fs.lookup (DocsServer.resolveDocs p) = some fd ∧ fd.textOk = true →
      DocsServer.handle_read_mmd fs p =
        { status := 200, contentType := "text/plain", body := .text fd.text }) ∧
    (hasDotDotS (DocsServer.decodeS p) = false ∧
        startsWithS "docs/" (DocsServer.decodeS p) = true ∧
        fs.lookup (DocsServer.decodeS p) = some fd →
      DocsServer.handle_read_file guessMime fs p =
        { status := 200,
          contentType := (guessMime (DocsServer.decodeS p)).getD "application/octet-stream",
          body := .bytes fd.bytes }) ∧
    (hasDotDotS p = false ∧ startsWithS "docs/architecture/" p = true ∧
        fs.lookup p = some fd ∧ fd.textOk = true →
      Server.handle_read_mmd fs p =
        { status := 200, contentType := "text/plain", body := .text fd.text }) := by
  refine ⟨?_, ?_, ?_⟩
  · rintro ⟨h1, h2, h3⟩
    simp [DocsServer.handle_read_mmd, FS.isfile, openTextE, h1, h2, h3, boundary]
  · rintro ⟨h1, h2, h3⟩
    simp [DocsServer.handle_read_file, openBytesE, h1, h2, h3, boundary]
  · rintro ⟨h1, h2, h3, h4⟩
    simp [Server.handle_read_mmd, openTextE, h1, h2, h3, h4, boundary]

/-- Claim C4, witness at a concrete mermaid file, all three endpoints. -/
theorem claim_C4_witness :
    DocsServer.handle_read_mmd fsC4 "architecture/diagrams/arch.mmd" =
      { status := 200, contentType := "text/plain", body := .text "graph TD;" } ∧
    DocsServer.handle_read_file (fun _ => none) fsC4 "docs/architecture/diagrams/arch.mmd" =
      { status := 200, contentType := "application/octet-stream",
        body := .bytes [103, 114] } ∧
    Server.handle_read_mmd fsC4 "docs/architecture/diagrams/arch.mmd" =
      { status := 200, contentType := "text/plain", body := .text "graph TD;" } :=
  ⟨(claim_C4 fsC4 "architecture/diagrams/arch.mmd" ⟨[103, 114], true, "graph TD;"⟩
      (fun _ => none)).1 ⟨by decide, by decide, by decide⟩,
   (claim_C4 fsC4 "docs/architecture/diagrams/arch.mmd" ⟨[103, 114], true, "graph TD;"⟩
      (fun _ => none)).2.1 ⟨by decide, by decide, by decide⟩,
   (claim_C4 fsC4 "docs/architecture/diagrams/arch.mmd" ⟨[103, 114], true, "graph TD;"⟩
      (fun _ => none)).2.2 ⟨by decide, by decide, by decide, by decide⟩⟩

/-- Claim C5, counterexample: the sort key of the structure classifier does
not include the full path; two distinct entries sharing section priority,
root flag, folder path and title compare equal, and the stable sort then
keeps whichever enumeration order it was given, so permuting the enumeration
changes the final output. -/
theorem claim_C5_cex :
    DocsServer.entryKey entC5a = DocsServer.entryKey entC5b ∧
    entC5a.path ≠ entC5b.path ∧
    DocsServer.pySortEntries [entC5a, entC5b] = [entC5a, entC5b] ∧
    DocsServer.pySortEntries [entC5b, entC5a] = [entC5b, entC5a] ∧
    ([entC5a, entC5b] : List Entry) ≠ [entC5b, entC5a] := by
  refine ⟨by decide, by decide, by decide, by decide, by decide⟩

/-- Claim C5, amended: the comparison on the four-component key (section
priority, root flag, folder path, title) is total and transitive, the sort
returns a permutation of its input ordered by it, and two entries tie exactly
when their whole keys agree, which does not force equal full paths; for a
fixed enumeration order the output is therefore deterministic, while ties
follow the enumeration order, which the source fixes by sorting the walk. -/
theorem claim_C5_amended (l : List Entry) (a b : Entry) :
    List.Sorted DocsServer.entryLe (DocsServer.pySortEntries l) ∧
    List.Perm (DocsServer.pySortEntries l) l ∧
    (DocsServer.entryLe a b ∨ DocsServer.entryLe b a) ∧
    (DocsServer.entryLe a b → DocsServer.entryLe b a →
      DocsServer.entryKey a = DocsServer.entryKey b) :=
  ⟨List.sorted_insertionSort DocsServer.entryLe l,
   List.perm_insertionSort DocsServer.entryLe l,
   le_total (DocsServer.entryKey a) (DocsServer.entryKey b),
   fun h h2 => le_antisymm h h2⟩

/-- Claim C5, witness of the amended theorem at the two tied entries. -/
theorem claim_C5_witness :
    List.Perm (DocsServer.pySortEntries [entC5a, entC5b]) [entC5a, entC5b] ∧
    DocsServer.entryKey entC5a = DocsServer.entryKey entC5b :=
  ⟨(claim_C5_amended [entC5a, entC5b] entC5a entC5b).2.1,
   (claim_C5_amended [entC5a, entC5b] entC5a entC5b).2.2.2 (by decide) (by decide)⟩

/-- Claim C6: the title extraction examples. A first line of hash Hello World
yields Hello World; a headingless getting-started.md yields Getting Started
from its filename; flow-chart.mmd already holds a diagram word and keeps its
default title; overview.mmd gains the Diagram label. The final conjunct runs
the whole structure listing over these files. -/
theorem claim_C6 :
    DocsServer.fileTitle fsC6 "docs/architecture/common/hello.md" = "Hello World" ∧
    DocsServer.fileTitle fsC6 "docs/architecture/common/getting-started.md" = "Getting Started" ∧
    DocsServer.fileTitle fsC6 "docs/architecture/react/flow-chart.mmd" = "Flow Chart" ∧
    DocsServer.fileTitle fsC6 "docs/architecture/react/overview.mmd" = "Diagram: Overview" ∧
    (DocsServer.get_docs_structure fsC6).map (·.title) =
      ["Getting Started", "Hello World", "Diagram: Overview", "Flow Chart"] := by
  refine ⟨by decide, by decide, by decide, by decide, by decide⟩

/-- Claim C7, the code bug: in the structure listing an unreadable markdown
file degrades to its filename title and the request still answers 200; but in
the mockup listing the per-file text read sits inside the handler-wide try,
so one binary png makes the whole listing request fail with the 500 json
error instead of degrading. -/
theorem claim_C7_bug :
    DocsServer.fileTitle fsC7 "docs/architecture/common/broken.md" = "Broken" ∧
    (DocsServer.handle_docs_structure fsC7).status = 200 ∧
    (DocsServer.handle_list_mockups fsC7).status = 500 ∧
    (DocsServer.handle_list_mockups fsC7).body.isErr = true := by
  refine ⟨by decide, by decide, by decide, by decide⟩

/-- Claim C8: for every filesystem, renderer, MIME guesser and request path,
every listing and read handler of both snapshots answers either 200 or the
500 response whose body is the json error object; no other status exists in
this logic and no failure escapes the boundary. -/
theorem claim_C8 (fs : FS) (render : String → String)
    (guessMime : String → Option String) (p : String) :
    okOr500Err (DocsServer.handle_docs_structure fs) ∧
    okOr500Err (DocsServer.handle_read_mmd fs p) ∧
    okOr500Err (DocsServer.handle_read_doc render fs p) ∧
    okOr500Err (DocsServer.handle_list_mmd fs) ∧
    okOr500Err (DocsServer.handle_list_docs fs) ∧
    okOr500Err (DocsServer.handle_read_file guessMime fs p) ∧
    okOr500Err (DocsServer.handle_mockup fs p) ∧
    okOr500Err (DocsServer.handle_list_mockups fs) ∧
    okOr500Err (Server.handle_read_mmd fs p) ∧
    okOr500Err (Server.handle_list_mmd fs) :=
  ⟨boundary_okOr500Err _, boundary_okOr500Err _, boundary_okOr500Err _,
   boundary_okOr500Err _, boundary_okOr500Err _, boundary_okOr500Err _,
   boundary_okOr500Err _, boundary_okOr500Err _, boundary_okOr500Err _,
   boundary_okOr500Err _⟩

/-- Claim C9: for a relative request path that does not start with docs, the
later snapshot resolves it by prepending the document root, so the request
and its docs-prepended form resolve to the same file and produce the same
response on read-mmd and read-doc. -/
theorem claim_C9 (render : String → String) (fs : FS) (X : String)
    (h1 : startsWithS "docs/" (DocsServer.decodeS X) = false)
    (h2 : startsWithS "/" (DocsServer.decodeS X) = false) :
    DocsServer.resolveDocs ("docs/" ++ X) = DocsServer.resolveDocs X ∧
    DocsServer.handle_read_mmd fs ("docs/" ++ X) = DocsServer.handle_read_mmd fs X ∧
    DocsServer.handle_read_doc render fs ("docs/" ++ X) =
      DocsServer.handle_read_doc render fs X := by
  have hres := resolveDocs_docs X h1 h2
  refine ⟨hres, ?_, ?_⟩
  · simp only [DocsServer.handle_read_mmd]
    rw [decode_docs, hasDotDotS_docs, hres]
  · simp only [DocsServer.handle_read_doc]
    rw [decode_docs, hasDotDotS_docs, hres]

/-- Claim C9, witness at a concrete relative path and its prepended form. -/
theorem claim_C9_witness :
    DocsServer.resolveDocs ("docs/" ++ "architecture/x.mmd") =
      DocsServer.resolveDocs "architecture/x.mmd" ∧
    DocsServer.handle_read_mmd fsC9 ("docs/" ++ "architecture/x.mmd") =
      DocsServer.handle_read_mmd fsC9 "architecture/x.mmd" :=
  ⟨(claim_C9 id fsC9 "architecture/x.mmd" (by decide) (by decide)).1,
   (claim_C9 id fsC9 "architecture/x.mmd" (by decide) (by decide)).2.1⟩

/-- Claim C10: the decoding rewrites exactly the uppercase percent-2-F
sequence to a slash; any string without that sequence, in particular the
lowercase escape and the percent-encoded dots, decodes to itself and is used
literally both by the traversal check and by the filesystem lookup, as the
concrete reads against files with literal percent characters show. -/
theorem claim_C10 :
    DocsServer.decodeS "a%2Fb" = "a/b" ∧
    DocsServer.decodeS "a%2fb" = "a%2fb" ∧
    DocsServer.decodeS "%2e%2E" = "%2e%2E" ∧
    (∀ q : String, containsSub "%2F".data q.data = false → DocsServer.decodeS q = q) ∧
    hasDotDotS (DocsServer.decodeS "docs/%2e%2e/f") = false ∧
    DocsServer.handle_read_mmd fsC10 "a%2fb" =
      { status := 200, contentType := "text/plain", body := .text "lower escape literal" } ∧
    DocsServer.handle_read_mmd fsC10 "a%2Fb" =
      { status := 200, contentType := "text/plain", body := .text "decoded slash" } ∧
    DocsServer.handle_read_file (fun _ => none) fsC10 "docs/%2e%2e/f" =
      { status := 200, contentType := "application/octet-stream", body := .bytes [3] } := by
  refine ⟨by decide, by decide, by decide, ?_, by decide, by decide, by decide, by decide⟩
  intro q hq
  show String.mk (DocsServer.decodeSepAux q.data) = q
  rw [decodeSepAux_id q.data hq]

/-- Claim C10, witness of the universal conjunct at the lowercase escape. -/
theorem claim_C10_witness :
    DocsServer.decodeS "x%2fy%2e" = "x%2fy%2e" :=
  claim_C10.2.2.2.1 "x%2fy%2e" (by decide)
